import Mathlib

/-!
Shallow embedding of the StudyTracker learning-diary Telegram bot
(src/database.js, src/index.js, src/ai.js) together with proofs about its
conversation state machine and analytics functions.

Conventions used by the embedding:
- Calendar days are abstracted to integer day keys: the JavaScript code groups
  entries by the ISO date string of `createdAt`; two timestamps share a day key
  exactly when they share that date string, and stepping `currentDate` back by
  one day decrements the key.
- JavaScript numbers are modelled exactly (Nat / Int / Rat); the one place
  where NaN / Infinity behaviour matters (division by a zero user count in
  getGlobalStats) gets an explicit JSNum type carrying those values.
- The mutable `userStates[chatId]` map is modelled per user as an
  `Option ConvState` threaded through the message handler, and database /
  Telegram side effects are collected in an explicit `Effects` record.
-/

namespace StudyTracker

/-- JavaScript whitespace skipped by parseInt (the forms that matter for
chat messages). -/
def jsWhitespace (c : Char) : Bool :=
  c == ' ' || c == '\t' || c == '\n' || c == '\r'

/-- Value of a list of decimal digit characters, most significant first. -/
def digitsToNat (ds : List Char) : Nat :=
  ds.foldl (fun n c => 10 * n + (c.toNat - 48)) 0

/-- JavaScript parseInt(s) in radix 10: skip leading whitespace, read an
optional sign, then the maximal run of decimal digits, ignoring the rest of
the string; NaN (here none) when no digit is found. -/
def parseIntJS (s : String) : Option Int :=
  let cs := s.data.dropWhile jsWhitespace
  match cs with
  | '-' :: rest =>
      let ds := rest.takeWhile Char.isDigit
      if ds.isEmpty then none else some (-(digitsToNat ds : Int))
  | '+' :: rest =>
      let ds := rest.takeWhile Char.isDigit
      if ds.isEmpty then none else some ((digitsToNat ds : Int))
  | _ =>
      let ds := cs.takeWhile Char.isDigit
      if ds.isEmpty then none else some ((digitsToNat ds : Int))

/-- User record (UserSchema, src/database.js:16-28). The timestamp fields
(joinedAt, lastActiveAt) and the settings sub-document are not referenced by
any verified claim and are omitted. dailyGoal defaults to null (none). -/
structure User where
  chatId : Int
  quizDay : Int
  quizTime : Int
  dailyGoal : Option Int
deriving DecidableEq

/-- setQuizTime (src/database.js:62-64): updates quizDay and quizTime of the
user record. -/
def setQuizTime (u : User) (day time : Int) : User :=
  User.mk u.chatId day time u.dailyGoal

/-- setUserGoal (src/database.js:66-68): updates dailyGoal of the user
record. -/
def setUserGoal (u : User) (goal : Int) : User :=
  User.mk u.chatId u.quizDay u.quizTime (some goal)

/-- getUserGoal (src/database.js:70-73): returns `user?.dailyGoal || null`,
so a stored 0 (falsy) and a missing goal both come back as null (none). -/
def getUserGoal (dailyGoal : Option Nat) : Option Nat :=
  match dailyGoal with
  | some g => if g = 0 then none else some g
  | none => none

/-- The while(true) loop of getUserStreak (src/database.js:178-190), one
constructor per loop iteration. `entryDays` is the set of day keys of
learningsByDate, `todayKey` is the day key of `new Date()` recomputed inside
the loop, `currentDate` and `streak` are the two mutable variables. The
`fuel` argument only bounds the iteration count for termination; the lemmas
below show the loop always reaches its break before the fuel chosen in
`getUserStreak` runs out. -/
def streakLoop (entryDays : List Int) (todayKey : Int) :
    Nat → Int → Nat → Nat
  | 0, _, streak => streak
  | Nat.succ fuel, currentDate, streak =>
      if currentDate ∈ entryDays then
        streakLoop entryDays todayKey fuel (currentDate - 1) (streak + 1)
      else if streak = 0 ∧ currentDate = todayKey then
        streakLoop entryDays todayKey fuel (currentDate - 1) streak
      else
        streak

/-- getUserStreak (src/database.js:159-193) on the day keys of the stored
learnings of one user: returns 0 when there are no learnings, otherwise runs
the backward walk starting at the day key of today. -/
def getUserStreak (entryDays : List Int) (today : Int) : Nat :=
  if entryDays.isEmpty then 0
  else streakLoop entryDays today (entryDays.length + 2) today 0

/-- Day the backward streak walk effectively starts from: today when it has
an entry, otherwise yesterday (the special case in
src/database.js:184-186). -/
def streakStart (entryDays : List Int) (today : Int) : Int :=
  if today ∈ entryDays then today else today - 1

/-- Length of the run of consecutive day keys present in `entryDays`,
walking down from `d`, cut off at `fuel` iterations. -/
def hitRun (entryDays : List Int) : Int → Nat → Nat
  | _, 0 => 0
  | d, Nat.succ fuel =>
      if d ∈ entryDays then hitRun entryDays (d - 1) fuel + 1 else 0

theorem hitRun_mem (entryDays : List Int) :
    ∀ (fuel : Nat) (d : Int) (k : Nat), k < hitRun entryDays d fuel →
      d - (k : Int) ∈ entryDays := by
  intro fuel
  induction fuel with
  | zero =>
      intro d k hk
      simp [hitRun] at hk
  | succ f ih =>
      intro d k hk
      by_cases hd : d ∈ entryDays
      · rw [show hitRun entryDays d (f + 1)
            = hitRun entryDays (d - 1) f + 1 from by simp [hitRun, hd]] at hk
        cases k with
        | zero => simpa using hd
        | succ k =>
            have hmem := ih (d - 1) k (by omega)
            have heq : d - ((k + 1 : Nat) : Int) = d - 1 - (k : Int) := by
              push_cast
              ring
            rw [heq]
            exact hmem
      · rw [show hitRun entryDays d (f + 1) = 0 from by simp [hitRun, hd]] at hk
        omega

theorem hitRun_miss (entryDays : List Int) :
    ∀ (fuel : Nat) (d : Int), hitRun entryDays d fuel < fuel →
      d - (hitRun entryDays d fuel : Int) ∉ entryDays := by
  intro fuel
  induction fuel with
  | zero =>
      intro d h
      omega
  | succ f ih =>
      intro d h
      by_cases hd : d ∈ entryDays
      · have hrw : hitRun entryDays d (f + 1) = hitRun entryDays (d - 1) f + 1 := by
          simp [hitRun, hd]
        rw [hrw] at h ⊢
        have hlt : hitRun entryDays (d - 1) f < f := by omega
        have hmiss := ih (d - 1) hlt
        have heq : d - ((hitRun entryDays (d - 1) f + 1 : Nat) : Int)
            = d - 1 - (hitRun entryDays (d - 1) f : Int) := by
          push_cast
          ring
        rw [heq]
        exact hmiss
      · have hrw : hitRun entryDays d (f + 1) = 0 := by simp [hitRun, hd]
        rw [hrw]
        simpa using hd

theorem hitRun_le_length (entryDays : List Int) (fuel : Nat) (d : Int) :
    hitRun entryDays d fuel ≤ entryDays.length := by
  have hinj : Function.Injective (fun k : Nat => d - (k : Int)) := by
    intro a b hab
    simp only at hab
    omega
  have hsub : (Finset.range (hitRun entryDays d fuel)).image
      (fun k : Nat => d - (k : Int)) ⊆ entryDays.toFinset := by
    intro x hx
    simp only [Finset.mem_image, Finset.mem_range] at hx
    obtain ⟨k, hk, rfl⟩ := hx
    exact List.mem_toFinset.mpr (hitRun_mem entryDays fuel d k hk)
  have hcard := Finset.card_le_card hsub
  rw [Finset.card_image_of_injective _ hinj, Finset.card_range] at hcard
  exact hcard.trans (List.toFinset_card_le entryDays)

theorem streakLoop_run (entryDays : List Int) (todayKey : Int) :
    ∀ (fuel : Nat) (d : Int) (s : Nat), 0 < s ∨ d ≠ todayKey →
      streakLoop entryDays todayKey fuel d s = s + hitRun entryDays d fuel := by
  intro fuel
  induction fuel with
  | zero =>
      intro d s _
      simp [streakLoop, hitRun]
  | succ f ih =>
      intro d s hs
      by_cases hd : d ∈ entryDays
      · rw [show streakLoop entryDays todayKey (f + 1) d s
            = streakLoop entryDays todayKey f (d - 1) (s + 1) from by
          simp [streakLoop, hd]]
        rw [ih (d - 1) (s + 1) (Or.inl (by omega))]
        rw [show hitRun entryDays d (f + 1)
            = hitRun entryDays (d - 1) f + 1 from by simp [hitRun, hd]]
        omega
      · have hcond : ¬ (s = 0 ∧ d = todayKey) := by
          rcases hs with h | h
          · intro hc
            omega
          · intro hc
            exact h hc.2
        rw [show streakLoop entryDays todayKey (f + 1) d s = s from by
          simp [streakLoop, hd, hcond]]
        rw [show hitRun entryDays d (f + 1) = 0 from by simp [hitRun, hd]]
        omega

theorem getUserStreak_unfold (entryDays : List Int) (today : Int)
    (h : ¬ entryDays.isEmpty) :
    getUserStreak entryDays today
      = if today ∈ entryDays then
          1 + hitRun entryDays (today - 1) (entryDays.length + 1)
        else
          hitRun entryDays (today - 1) (entryDays.length + 1) := by
  unfold getUserStreak
  rw [if_neg h]
  by_cases ht : today ∈ entryDays
  · rw [if_pos ht]
    rw [show streakLoop entryDays today (entryDays.length + 2) today 0
        = streakLoop entryDays today (entryDays.length + 1) (today - 1) 1 from by
      simp [streakLoop, ht]]
    rw [streakLoop_run entryDays today (entryDays.length + 1) (today - 1) 1
      (Or.inl one_pos)]
  · rw [if_neg ht]
    rw [show streakLoop entryDays today (entryDays.length + 2) today 0
        = streakLoop entryDays today (entryDays.length + 1) (today - 1) 0 from by
      simp [streakLoop, ht]]
    rw [streakLoop_run entryDays today (entryDays.length + 1) (today - 1) 0
      (Or.inr (by omega))]
    omega

/-- C1: getUserStreak returns the number of consecutive calendar days with at
least one entry, walking backward from today; if today has no entries the
walk starts from yesterday instead, and it stops at the first calendar day
with no entries. In particular entries on exactly today, today-1, today-2
give streak 3, and entries on exactly yesterday and the day before (none
today) give streak 2. -/
theorem getUserStreak_consecutive_days (entryDays : List Int) (today : Int) :
    (∀ k : Nat, k < getUserStreak entryDays today →
        streakStart entryDays today - (k : Int) ∈ entryDays) ∧
    streakStart entryDays today - (getUserStreak entryDays today : Int) ∉ entryDays ∧
    getUserStreak [(0 : Int), -1, -2] 0 = 3 ∧
    getUserStreak [(-1 : Int), -2] 0 = 2 := by
  refine ⟨?_, ?_, by decide, by decide⟩
  · intro k hk
    by_cases he : entryDays.isEmpty
    · rw [getUserStreak, if_pos he] at hk
      omega
    · rw [getUserStreak_unfold entryDays today he] at hk
      by_cases ht : today ∈ entryDays
      · rw [if_pos ht] at hk
        rw [streakStart, if_pos ht]
        cases k with
        | zero => simpa using ht
        | succ k =>
            have hmem := hitRun_mem entryDays (entryDays.length + 1) (today - 1) k
              (by omega)
            have heq : today - ((k + 1 : Nat) : Int) = today - 1 - (k : Int) := by
              push_cast
              ring
            rw [heq]
            exact hmem
      · rw [if_neg ht] at hk
        rw [streakStart, if_neg ht]
        exact hitRun_mem entryDays (entryDays.length + 1) (today - 1) k hk
  · by_cases he : entryDays.isEmpty
    · have hnil : entryDays = [] := List.isEmpty_iff.mp he
      subst hnil
      simp
    · rw [getUserStreak_unfold entryDays today he]
      by_cases ht : today ∈ entryDays
      · rw [if_pos ht]
        rw [streakStart, if_pos ht]
        have hle := hitRun_le_length entryDays (entryDays.length + 1) (today - 1)
        have hmiss := hitRun_miss entryDays (entryDays.length + 1) (today - 1)
          (by omega)
        have heq : today - ((1 + hitRun entryDays (today - 1) (entryDays.length + 1) : Nat) : Int)
            = today - 1 - (hitRun entryDays (today - 1) (entryDays.length + 1) : Int) := by
          push_cast
          ring
        rw [heq]
        exact hmiss
      · rw [if_neg ht]
        rw [streakStart, if_neg ht]
        have hle := hitRun_le_length entryDays (entryDays.length + 1) (today - 1)
        exact hitRun_miss entryDays (entryDays.length + 1) (today - 1) (by omega)

/-- Daily goal progress percentage as computed in showUserStats
(src/index.js:365) and processLearningEntry (src/index.js:322):
`Math.min(100, Math.round((todayCount / goal) * 100))`, with the division
modelled exactly in ℚ and Math.round as Mathlib round (both round halves
up). -/
def goalProgress (todayCount g : Nat) : Int :=
  min 100 (round ((todayCount : ℚ) / (g : ℚ) * 100))

/-- The goal-progress percentage showUserStats reports (src/index.js:364-367):
present exactly when `if (goal)` holds for the value getUserGoal returned. -/
def showUserStatsProgress (todayCount : Nat) (dailyGoal : Option Nat) : Option Int :=
  match getUserGoal dailyGoal with
  | some g => some (goalProgress todayCount g)
  | none => none

/-- Outcome of one JavaScript arithmetic expression: an exact finite value,
NaN, or a signed infinity. Finite double rounding is idealised as exact
rational arithmetic; only the zero-denominator behaviour of / is needed by
the claims. -/
inductive JSNum where
  | finite (q : ℚ)
  | nan
  | posInf
  | negInf
deriving DecidableEq

/-- JavaScript division. Dividing a nonzero finite value by 0 gives a signed
infinity; 0/0 gives NaN. -/
def JSNum.div : JSNum → JSNum → JSNum
  | JSNum.finite a, JSNum.finite b =>
      if b = 0 then
        if a = 0 then JSNum.nan else if 0 < a then JSNum.posInf else JSNum.negInf
      else JSNum.finite (a / b)
  | JSNum.nan, _ => JSNum.nan
  | _, JSNum.nan => JSNum.nan
  | JSNum.posInf, JSNum.finite b => if 0 ≤ b then JSNum.posInf else JSNum.negInf
  | JSNum.negInf, JSNum.finite b => if 0 ≤ b then JSNum.negInf else JSNum.posInf
  | JSNum.finite _, JSNum.posInf => JSNum.finite 0
  | JSNum.finite _, JSNum.negInf => JSNum.finite 0
  | JSNum.posInf, JSNum.posInf => JSNum.nan
  | JSNum.posInf, JSNum.negInf => JSNum.nan
  | JSNum.negInf, JSNum.posInf => JSNum.nan
  | JSNum.negInf, JSNum.negInf => JSNum.nan

/-- JavaScript multiplication; an infinity times 0 is NaN. -/
def JSNum.mul : JSNum → JSNum → JSNum
  | JSNum.finite a, JSNum.finite b => JSNum.finite (a * b)
  | JSNum.nan, _ => JSNum.nan
  | _, JSNum.nan => JSNum.nan
  | JSNum.posInf, JSNum.finite b =>
      if b = 0 then JSNum.nan else if 0 < b then JSNum.posInf else JSNum.negInf
  | JSNum.negInf, JSNum.finite b =>
      if b = 0 then JSNum.nan else if 0 < b then JSNum.negInf else JSNum.posInf
  | JSNum.finite a, JSNum.posInf =>
      if a = 0 then JSNum.nan else if 0 < a then JSNum.posInf else JSNum.negInf
  | JSNum.finite a, JSNum.negInf =>
      if a = 0 then JSNum.nan else if 0 < a then JSNum.negInf else JSNum.posInf
  | JSNum.posInf, JSNum.posInf => JSNum.posInf
  | JSNum.posInf, JSNum.negInf => JSNum.negInf
  | JSNum.negInf, JSNum.posInf => JSNum.negInf
  | JSNum.negInf, JSNum.negInf => JSNum.posInf

/-- JavaScript Math.round: NaN and infinities pass through, finite values
round with halves toward positive infinity (Mathlib round). -/
def JSNum.roundJS : JSNum → JSNum
  | JSNum.finite q => JSNum.finite ((round q : Int) : ℚ)
  | JSNum.nan => JSNum.nan
  | JSNum.posInf => JSNum.posInf
  | JSNum.negInf => JSNum.negInf

/-- The averageLearningsPerUser field of getGlobalStats
(src/database.js:292): `Math.round(totalLearnings / totalUsers * 10) / 10`,
with no guard on totalUsers. -/
def averageLearningsPerUser (totalLearnings totalUsers : Nat) : JSNum :=
  JSNum.div
    (JSNum.roundJS
      (JSNum.mul
        (JSNum.div (JSNum.finite (totalLearnings : ℚ)) (JSNum.finite (totalUsers : ℚ)))
        (JSNum.finite 10)))
    (JSNum.finite 10)

/-- Shape of the body the OpenRouter call produced: either it has
`choices[0].message.content`, or accessing that path throws a TypeError. -/
inductive ResponseBody where
  | valid (content : String)
  | malformed
deriving DecidableEq

/-- Outcome of the fetch in callOpenRouter: an HTTP response that is ok with
some body, a non-ok HTTP response, or a rejected fetch (network error). -/
inductive FetchOutcome where
  | ok (body : ResponseBody)
  | httpError
  | networkError
deriving DecidableEq

/-- Exceptions that can be raised inside the try block of callOpenRouter. -/
inductive JSError where
  | apiError
  | typeError
  | fetchRejected
deriving DecidableEq

/-- The try block of callOpenRouter (src/ai.js:8-27): network failure
rejects, a non-ok response throws Error, a body without
`choices[0].message.content` throws a TypeError, otherwise the content is
returned. -/
def callOpenRouterTryBlock : FetchOutcome → Except JSError String
  | FetchOutcome.networkError => Except.error JSError.fetchRejected
  | FetchOutcome.httpError => Except.error JSError.apiError
  | FetchOutcome.ok ResponseBody.malformed => Except.error JSError.typeError
  | FetchOutcome.ok (ResponseBody.valid content) => Except.ok content

/-- callOpenRouter (src/ai.js:2-33): a missing API key short-circuits to an
apology, and the catch block converts every exception from the try block to
an apology, so the function itself never throws (the result is always
`Except.ok`). -/
def callOpenRouter (apiKeyPresent : Bool) (outcome : FetchOutcome) :
    Except JSError String :=
  if apiKeyPresent = false then
    Except.ok "Sorry, the bot is not configured correctly to process this request."
  else
    match callOpenRouterTryBlock outcome with
    | Except.ok content => Except.ok content
    | Except.error _ =>
        Except.ok "Sorry, I had trouble connecting to the AI service."

/-- C9: every failure mode of the AI call (missing API key, non-ok HTTP
response, network error, malformed response body) yields a user-visible
apologetic string, and callOpenRouter never propagates an exception: its
result is always an ok value. -/
theorem callOpenRouter_never_throws :
    (∀ o : FetchOutcome, callOpenRouter false o
        = Except.ok "Sorry, the bot is not configured correctly to process this request.") ∧
    callOpenRouter true FetchOutcome.httpError
      = Except.ok "Sorry, I had trouble connecting to the AI service." ∧
    callOpenRouter true FetchOutcome.networkError
      = Except.ok "Sorry, I had trouble connecting to the AI service." ∧
    callOpenRouter true (FetchOutcome.ok ResponseBody.malformed)
      = Except.ok "Sorry, I had trouble connecting to the AI service." ∧
    (∀ (k : Bool) (o : FetchOutcome), ∃ s : String, callOpenRouter k o = Except.ok s) := by
  refine ⟨fun o => rfl, rfl, rfl, rfl, ?_⟩
  intro k o
  cases k
  · exact ⟨_, rfl⟩
  · cases o with
    | ok body => cases body <;> exact ⟨_, rfl⟩
    | httpError => exact ⟨_, rfl⟩
    | networkError => exact ⟨_, rfl⟩

/-- C8: getGlobalStats divides totalLearnings by totalUsers with no
zero-user guard, so with zero users averageLearningsPerUser is NaN (when
totalLearnings = 0) or Infinity (when totalLearnings > 0) instead of the
zero / omitted value the spec requires; with users present the value is the
ordinary rounded average (7 learnings over 2 users give 3.5). -/
theorem averageLearningsPerUser_nan :
    averageLearningsPerUser 0 0 = JSNum.nan ∧
    averageLearningsPerUser 5 0 = JSNum.posInf ∧
    JSNum.nan ≠ JSNum.finite 0 ∧
    JSNum.posInf ≠ JSNum.finite 0 ∧
    averageLearningsPerUser 7 2 = JSNum.finite (7 / 2 : ℚ) := by
  refine ⟨by decide, by decide, by decide, by decide, ?_⟩
  have h35 : ((7 : ℚ) / 2 * 10) = ((35 : Int) : ℚ) := by norm_num
  norm_num [averageLearningsPerUser, JSNum.div, JSNum.mul, JSNum.roundJS, h35,
    round_intCast]

/-- Per-user conversation state stored in userStates[chatId]
(src/index.js:31,147,166,184,336,504,517): the command tag together with the
data fields the handlers attach to it. -/
inductive ConvState where
  | waiting_for_learning (pendingContent : Option String)
  | quick_learn
  | search
  | custom_goal
  | ai_convo (originalContent : String)
deriving DecidableEq

/-- Abstract content of one bot.sendMessage call made by the message
handler or by processLearningEntry / showUserStats. -/
inductive Reply where
  | learningSaved (todayCount : Nat) (progress : Option Int)
  | goalAchieved (streak : Nat)
  | thinking
  | followUpQuestion (q : String)
  | categoryPrompt
  | goalSet (g : Int)
  | invalidGoalPrompt
  | searchResultsMsg (found : Nat)
  | noResultsMsg (query : String)
deriving DecidableEq

/-- Side effects of handling one inbound update: db.addLearning calls
(content, category), db.setUserGoal calls, and messages sent back. -/
structure Effects where
  entryWrites : List (String × Option String)
  goalWrites : List Int
  replies : List Reply
deriving DecidableEq

/-- No side effects. -/
def noEffects : Effects :=
  Effects.mk [] [] []

/-- Read-only context a handler run consumes: the Entry Store reads
(today count after the write, the stored daily goal, the current streak,
search results for the query) and the AI collaborator output. -/
structure Env where
  todayCount : Nat
  dailyGoal : Option Nat
  streak : Nat
  followUp : String
  searchResults : List String
deriving DecidableEq

/-- Content of the entry the ai_convo case stores for a user reply
(src/index.js:622). -/
def aiConvoEntry (userReply : String) : String :=
  "💭 Follow-up thought: " ++ userReply

/-- The command check of the message handler (src/index.js:565):
`msg.text.startsWith('/')`. Since the prefix is the single character '/',
the check is done on the first character of the text (String.startsWith of
the core library does not reduce inside the kernel, so this equivalent
first-character form is used). -/
def startsWithSlash (s : String) : Bool :=
  match s.data with
  | c :: _ => c == '/'
  | [] => false

/-- processLearningEntry (src/index.js:312-349): saves the learning, reports
todayCount plus the goal progress when a goal is set (and the achieved
message with the streak once the count reaches the goal), then generates the
AI follow-up question and overwrites the user state with the ai_convo
dialog. Returns the state it leaves in userStates[chatId] and the collected
effects. -/
def processLearningEntry (env : Env) (content : String) (category : Option String) :
    Option ConvState × Effects :=
  let userGoal := getUserGoal env.dailyGoal
  let achievedReplies :=
    match userGoal with
    | some g => if g ≤ env.todayCount then [Reply.goalAchieved env.streak] else []
    | none => []
  (some (ConvState.ai_convo content),
    Effects.mk [(content, category)] []
      (Reply.learningSaved env.todayCount
          ((getUserGoal env.dailyGoal).map fun g => goalProgress env.todayCount g)
        :: achievedReplies
        ++ [Reply.thinking, Reply.followUpQuestion env.followUp]))

/-- The bot.on message handler (src/index.js:561-644) for one user: a text
that starts with the command prefix returns immediately; with no stored
state the message is ignored; otherwise the stored command is dispatched.
quick_learn runs processLearningEntry and then deletes the state; search
answers and deletes the state; custom_goal commits a parsed goal in [1,50]
and deletes the state, or re-prompts keeping the state; ai_convo stores a
follow-up entry and keeps the state. -/
def handleMessage (env : Env) (state : Option ConvState) (text : String) :
    Option ConvState × Effects :=
  if startsWithSlash text then (state, noEffects)
  else
    match state with
    | none => (none, noEffects)
    | some (ConvState.waiting_for_learning _) =>
        (some (ConvState.waiting_for_learning (some text)),
          Effects.mk [] [] [Reply.categoryPrompt])
    | some ConvState.quick_learn =>
        let r := processLearningEntry env text none
        (none, r.2)
    | some ConvState.search =>
        if env.searchResults.isEmpty then
          (none, Effects.mk [] [] [Reply.noResultsMsg text])
        else
          (none, Effects.mk [] [] [Reply.searchResultsMsg env.searchResults.length])
    | some ConvState.custom_goal =>
        match parseIntJS text with
        | some g =>
            if g ≠ 0 ∧ 0 < g ∧ g ≤ 50 then
              (none, Effects.mk [] [g] [Reply.goalSet g])
            else
              (some ConvState.custom_goal, Effects.mk [] [] [Reply.invalidGoalPrompt])
        | none =>
            (some ConvState.custom_goal, Effects.mk [] [] [Reply.invalidGoalPrompt])
    | some (ConvState.ai_convo originalContent) =>
        (some (ConvState.ai_convo originalContent),
          Effects.mk [(aiConvoEntry text, none)] [] [Reply.followUpQuestion env.followUp])

/-- The cat_ branch of the callback handler (src/index.js:461-478): when the
stored state has a truthy pendingContent, processLearningEntry commits it
with the chosen category (the later `delete userStates[chatId].pendingContent`
acts on the fresh ai_convo object processLearningEntry installed, which has
no such field); otherwise nothing happens. -/
def handleCategoryCallback (env : Env) (category : Option String)
    (state : Option ConvState) : Option ConvState × Effects :=
  match state with
  | some (ConvState.waiting_for_learning (some pendingContent)) =>
      if pendingContent = "" then (state, noEffects)
      else processLearningEntry env pendingContent category
  | _ => (state, noEffects)

/-- Conversation state of the quiztime flow while it waits for the hour
message, after the day-of-week button stored the chosen day. -/
structure QuiztimeState where
  day : Int
deriving DecidableEq

/-- Modelled from the spec: the quiztime message-handler step is not part of
src/ (src/index.js has no quiztime case; only its Entry Store callee
setQuizTime in src/database.js:62-64 is present). Spec section 4.1: the next
text message is parsed as an hour integer in [0,23]; on success the flow
commits (day, hour) to the User via setQuizTime and returns to Idle; on
parse failure or an out-of-range value it remains in the same step with no
User mutation. -/
def handleQuiztimeHour (u : User) (day : Int) (text : String) :
    Option QuiztimeState × User :=
  match parseIntJS text with
  | some h =>
      if 0 ≤ h ∧ h ≤ 23 then (none, setQuizTime u day h)
      else (some (QuiztimeState.mk day), u)
  | none => (some (QuiztimeState.mk day), u)

/-- Fixed sample environment used by the witness theorems. -/
def env0 : Env :=
  Env.mk 1 none 0 "question" []

/-- Fixed sample user used by the witness theorems. -/
def u0 : User :=
  User.mk 1 0 20 none

/-- C2: for a user with a goal set the reported daily goal progress equals
min(100, round(todayCount / goal * 100)) — in particular 3 of 5 gives 60 and
6 of 5 is capped at 100 — no percentage is reported when no goal is set, and
processLearningEntry reports exactly the same percentage showUserStats
would. -/
theorem goalProgress_reported :
    (∀ (n g : Nat), 0 < g →
        showUserStatsProgress n (some g)
          = some (min 100 (round ((n : ℚ) / (g : ℚ) * 100)))) ∧
    (∀ n : Nat, showUserStatsProgress n none = none) ∧
    showUserStatsProgress 3 (some 5) = some 60 ∧
    showUserStatsProgress 6 (some 5) = some 100 ∧
    (∀ (env : Env) (content : String) (category : Option String),
        (processLearningEntry env content category).2.replies.head?
          = some (Reply.learningSaved env.todayCount
              (showUserStatsProgress env.todayCount env.dailyGoal))) := by
  refine ⟨?_, fun n => rfl, ?_, ?_, ?_⟩
  · intro n g hg
    have hg0 : g ≠ 0 := by omega
    simp [showUserStatsProgress, getUserGoal, hg0, goalProgress]
  · have h60 : ((3 : ℚ) / 5 * 100) = ((60 : Int) : ℚ) := by norm_num
    simp [showUserStatsProgress, getUserGoal, goalProgress, h60, round_intCast]
  · have h120 : ((6 : ℚ) / 5 * 100) = ((120 : Int) : ℚ) := by norm_num
    simp [showUserStatsProgress, getUserGoal, goalProgress, h120, round_intCast]
  · intro env content category
    cases h : getUserGoal env.dailyGoal <;>
      simp [processLearningEntry, showUserStatsProgress, h]

theorem goalProgress_reported_witness :
    0 < 5 ∧
    showUserStatsProgress 3 (some 5)
      = some (min 100 (round ((3 : ℚ) / (5 : ℚ) * 100))) :=
  ⟨by decide, goalProgress_reported.1 3 5 (by decide)⟩

/-- C3 counterexample: the ai_convo flow keeps its ConversationState alive
after handling a reply and commits an Entry Store write on that reply, so
one flow commits store writes on two different inbound messages — the claim
that no flow writes on more than one of its inbound messages is false. -/
theorem storeWrites_counterexample :
    (handleMessage env0 (some (ConvState.ai_convo "x")) "first reply").1
      = some (ConvState.ai_convo "x") ∧
    (handleMessage env0 (some (ConvState.ai_convo "x")) "first reply").2.entryWrites.length
      = 1 ∧
    (handleMessage env0 (some (ConvState.ai_convo "x")) "second reply").2.entryWrites.length
      = 1 := by
  refine ⟨rfl, rfl, rfl⟩

/-- C3 amended: every terminating flow (waiting_for_learning, quick_learn,
search, custom_goal) writes to the Entry Store at most once, on its terminal
step only and never on an intermediate step, while the open-ended ai_convo
flow commits exactly one follow-up entry per inbound reply and stays
active. -/
theorem storeWrites_amended (env : Env) (text orig : String) (category : Option String)
    (h : startsWithSlash text = false) (hne : text ≠ "") :
    (handleMessage env (some (ConvState.waiting_for_learning none)) text).2.entryWrites
      = [] ∧
    (handleMessage env (some (ConvState.waiting_for_learning none)) text).1
      = some (ConvState.waiting_for_learning (some text)) ∧
    (handleCategoryCallback env category
        (some (ConvState.waiting_for_learning (some text)))).2.entryWrites
      = [(text, category)] ∧
    (handleMessage env (some ConvState.quick_learn) text).2.entryWrites
      = [(text, none)] ∧
    (handleMessage env (some ConvState.quick_learn) text).1 = none ∧
    (handleMessage env (some ConvState.search) text).2.entryWrites = [] ∧
    (handleMessage env (some ConvState.custom_goal) text).2.entryWrites = [] ∧
    (handleMessage env (some (ConvState.ai_convo orig)) text).2.entryWrites
      = [(aiConvoEntry text, none)] ∧
    (handleMessage env (some (ConvState.ai_convo orig)) text).1
      = some (ConvState.ai_convo orig) := by
  refine ⟨?_, ?_, ?_, ?_, ?_, ?_, ?_, ?_, ?_⟩
  · simp [handleMessage, h]
  · simp [handleMessage, h]
  · simp [handleCategoryCallback, hne, processLearningEntry]
  · simp [handleMessage, h, processLearningEntry]
  · simp [handleMessage, h]
  · by_cases hs : env.searchResults.isEmpty <;> simp [handleMessage, h, hs]
  · rcases hp : parseIntJS text with _ | g
    · simp [handleMessage, h, hp]
    · by_cases hg : g ≠ 0 ∧ 0 < g ∧ g ≤ 50 <;> simp [handleMessage, h, hp, hg]
  · simp [handleMessage, h]
  · simp [handleMessage, h]

theorem storeWrites_amended_witness :
    (startsWithSlash "hello" = false) ∧ "hello" ≠ "" ∧
    (handleCategoryCallback env0 (some "Science")
        (some (ConvState.waiting_for_learning (some "hello")))).2.entryWrites
      = [("hello", some "Science")] :=
  ⟨by decide, by decide,
    (storeWrites_amended env0 "hello" "orig" (some "Science")
      (by decide) (by decide)).2.2.1⟩

/-- C4: in the quiztime flow, after a day of week is selected the next text
message is parsed as an hour integer in [0,23]; a valid hour commits
(day, hour) to the User via setQuizTime and returns the user to Idle, while
a parse failure or out-of-range value (day 3 then "25") leaves the user in
the same hour-asking step with no User mutation, and sending "18" afterward
commits day 3, hour 18. -/
theorem quiztime_flow (u : User) (day : Int) (text : String) :
    (∀ hr : Int, parseIntJS text = some hr → 0 ≤ hr → hr ≤ 23 →
        handleQuiztimeHour u day text = (none, setQuizTime u day hr) ∧
        (setQuizTime u day hr).quizDay = day ∧ (setQuizTime u day hr).quizTime = hr) ∧
    (parseIntJS text = none →
        handleQuiztimeHour u day text = (some (QuiztimeState.mk day), u)) ∧
    (∀ hr : Int, parseIntJS text = some hr → (hr < 0 ∨ 23 < hr) →
        handleQuiztimeHour u day text = (some (QuiztimeState.mk day), u)) ∧
    handleQuiztimeHour u 3 "25" = (some (QuiztimeState.mk 3), u) ∧
    (handleQuiztimeHour u 3 "18").1 = none ∧
    (handleQuiztimeHour u 3 "18").2.quizDay = 3 ∧
    (handleQuiztimeHour u 3 "18").2.quizTime = 18 := by
  have hp25 : parseIntJS "25" = some 25 := by decide
  have hp18 : parseIntJS "18" = some 18 := by decide
  refine ⟨?_, ?_, ?_, ?_, ?_, ?_, ?_⟩
  · intro hr hp h0 h23
    exact ⟨by simp [handleQuiztimeHour, hp, h0, h23], rfl, rfl⟩
  · intro hp
    simp [handleQuiztimeHour, hp]
  · intro hr hp hout
    have hc : ¬ ((0 : Int) ≤ hr ∧ hr ≤ 23) := by omega
    simp [handleQuiztimeHour, hp, hc]
  · have hc : ¬ ((0 : Int) ≤ 25 ∧ (25 : Int) ≤ 23) := by omega
    simp [handleQuiztimeHour, hp25, hc]
  · simp [handleQuiztimeHour, hp18, setQuizTime]
  · simp [handleQuiztimeHour, hp18, setQuizTime]
  · simp [handleQuiztimeHour, hp18, setQuizTime]

theorem quiztime_flow_witness :
    parseIntJS "18" = some 18 ∧ (0 : Int) ≤ 18 ∧ (18 : Int) ≤ 23 ∧
    handleQuiztimeHour u0 3 "18" = (none, setQuizTime u0 3 18) :=
  ⟨by decide, by decide, by decide,
    ((quiztime_flow u0 3 "18").1 18 (by decide) (by decide) (by decide)).1⟩

/-- C5: in the custom_goal flow a text parsing to an integer in [1,50]
commits the goal via setUserGoal and removes the ConversationState, while
any invalid input (unparsable or out of range) leaves the flow in the same
step with the state value unchanged, issues only the re-prompt reply and
performs no writes. -/
theorem customGoal_flow (env : Env) (text : String)
    (h : startsWithSlash text = false) :
    (∀ g : Int, parseIntJS text = some g → 1 ≤ g → g ≤ 50 →
        handleMessage env (some ConvState.custom_goal) text
          = (none, Effects.mk [] [g] [Reply.goalSet g]) ∧
        (∀ u : User, (setUserGoal u g).dailyGoal = some g)) ∧
    (parseIntJS text = none →
        handleMessage env (some ConvState.custom_goal) text
          = (some ConvState.custom_goal, Effects.mk [] [] [Reply.invalidGoalPrompt])) ∧
    (∀ g : Int, parseIntJS text = some g → (g < 1 ∨ 50 < g) →
        handleMessage env (some ConvState.custom_goal) text
          = (some ConvState.custom_goal, Effects.mk [] [] [Reply.invalidGoalPrompt])) := by
  refine ⟨?_, ?_, ?_⟩
  · intro g hp h1 h50
    have hc : g ≠ 0 ∧ 0 < g ∧ g ≤ 50 := ⟨by omega, by omega, h50⟩
    exact ⟨by simp [handleMessage, h, hp, hc], fun u => rfl⟩
  · intro hp
    simp [handleMessage, h, hp]
  · intro g hp hr
    have hc : ¬ (g ≠ 0 ∧ 0 < g ∧ g ≤ 50) := by omega
    simp [handleMessage, h, hp, hc]

theorem customGoal_flow_witness :
    (startsWithSlash "7" = false) ∧ parseIntJS "7" = some 7 ∧
    handleMessage env0 (some ConvState.custom_goal) "7"
      = (none, Effects.mk [] [7] [Reply.goalSet 7]) :=
  ⟨by decide, by decide,
    ((customGoal_flow env0 "7" (by decide)).1 7 (by decide) (by decide) (by decide)).1⟩

/-- C6: a message whose text begins with the command prefix is never treated
as flow input — the message handler returns with the stored
ConversationState (and hence its accumulated data) unchanged and performs no
writes. -/
theorem command_short_circuit (env : Env) (state : Option ConvState) (text : String)
    (h : startsWithSlash text = true) :
    handleMessage env state text = (state, noEffects) := by
  simp [handleMessage, h]

theorem command_short_circuit_witness :
    (startsWithSlash "/stats" = true) ∧
    handleMessage env0 (some (ConvState.waiting_for_learning (some "draft"))) "/stats"
      = (some (ConvState.waiting_for_learning (some "draft")), noEffects) :=
  ⟨by decide,
    command_short_circuit env0
      (some (ConvState.waiting_for_learning (some "draft"))) "/stats" (by decide)⟩

/-- C7: the search flow ends on its single query message for every result
outcome, including zero results: the ConversationState is removed and no
store write happens, so there is no retry. -/
theorem search_flow_ends (env : Env) (text : String)
    (h : startsWithSlash text = false) :
    (handleMessage env (some ConvState.search) text).1 = none ∧
    (handleMessage env (some ConvState.search) text).2.entryWrites = [] ∧
    (handleMessage env (some ConvState.search) text).2.goalWrites = [] := by
  by_cases hs : env.searchResults.isEmpty <;>
    exact ⟨by simp [handleMessage, h, hs], by simp [handleMessage, h, hs],
      by simp [handleMessage, h, hs]⟩

theorem search_flow_ends_witness :
    (startsWithSlash "quantum" = false) ∧
    (handleMessage env0 (some ConvState.search) "quantum").1 = none :=
  ⟨by decide, (search_flow_ends env0 "quantum" (by decide)).1⟩

/-- C10: after a quick_learn message the handler deletes userStates[chatId]
even though processLearningEntry has just set it to the ai_convo dialog and
sent the follow-up question inviting a reply; so the final state is none and
the next plain-text message is silently ignored (no state, no effects). -/
theorem quickLearn_state_deleted (env : Env) (text next : String)
    (h : startsWithSlash text = false) (h2 : startsWithSlash next = false) :
    (processLearningEntry env text none).1 = some (ConvState.ai_convo text) ∧
    Reply.followUpQuestion env.followUp ∈ (processLearningEntry env text none).2.replies ∧
    (handleMessage env (some ConvState.quick_learn) text).1 = none ∧
    (handleMessage env (some ConvState.quick_learn) text).2.entryWrites
      = [(text, none)] ∧
    handleMessage env none next = (none, noEffects) := by
  refine ⟨rfl, ?_, ?_, ?_, ?_⟩
  · simp [processLearningEntry]
  · simp [handleMessage, h]
  · simp [handleMessage, h, processLearningEntry]
  · simp [handleMessage, h2]

theorem quickLearn_state_deleted_witness :
    (startsWithSlash "learned X" = false) ∧ (startsWithSlash "more text" = false) ∧
    (handleMessage env0 (some ConvState.quick_learn) "learned X").1 = none ∧
    handleMessage env0 none "more text" = (none, noEffects) :=
  ⟨by decide, by decide,
    (quickLearn_state_deleted env0 "learned X" "more text"
      (by decide) (by decide)).2.2.1,
    (quickLearn_state_deleted env0 "learned X" "more text"
      (by decide) (by decide)).2.2.2.2⟩

end StudyTracker
